import Mathlib

/-!
Shallow embedding of the dnstwist MCP server (`src/index.ts`): the tool
invocation pipeline consisting of environment setup (`ensureSetup`), request
validation (`isFuzzDomainArgs`), default application and command construction,
subprocess execution (modelled by an oracle), and translation of the captured
stdout via JSON parsing into the tool response.

JavaScript values arriving as tool arguments are modelled by `JsVal`
(numbers restricted to integers, which covers every integral JS number the
claims speak about; floating point values are not interpreted anywhere in the
pipeline).  Absence of a property (`undefined`) is modelled by `Option`.
-/

/-- Raw (untyped) JavaScript values as delivered in `request.params.arguments`.
Object keys are assumed distinct, so association-list lookup models property
access. -/
inductive JsVal where
  | str (s : String)
  | num (n : Int)
  | bool (b : Bool)
  | null
  | obj (fields : List (String × JsVal))
  | arr (elems : List JsVal)

/-- Property access `a.k` on an object: `none` models `undefined`. -/
def lookupField (fields : List (String × JsVal)) (k : String) : Option JsVal :=
  match fields with
  | [] => none
  | (k', v) :: rest => if k' = k then some v else lookupField rest k

/-- Property access on an arbitrary argument value: only objects have
properties; on anything else every access yields `undefined`. -/
def argsField (args : Option JsVal) (k : String) : Option JsVal :=
  match args with
  | some (JsVal.obj fs) => lookupField fs k
  | _ => none

/-- Translation of `isFuzzDomainArgs` (src/index.ts lines 39-50).  The guard
`!args || typeof args !== 'object'` rejects `undefined`, `null`, strings,
numbers and booleans outright; an array passes the `typeof` test but has no
`domain` property, so it is rejected by the `typeof a.domain === 'string'`
conjunct, which the catch-all arm reflects. -/
def isFuzzDomainArgs (args : Option JsVal) : Bool :=
  match args with
  | some (JsVal.obj a) =>
      (match lookupField a "domain" with
       | some (JsVal.str _) => true
       | _ => false) &&
      (match lookupField a "nameservers" with
       | none => true
       | some (JsVal.str _) => true
       | _ => false) &&
      (match lookupField a "threads" with
       | none => true
       | some (JsVal.num _) => true
       | _ => false) &&
      (match lookupField a "format" with
       | none => true
       | some (JsVal.str s) => s = "json" ∨ s = "csv" ∨ s = "list"
       | _ => false) &&
      (match lookupField a "registered_only" with
       | none => true
       | some (JsVal.bool _) => true
       | _ => false) &&
      (match lookupField a "mxcheck" with
       | none => true
       | some (JsVal.bool _) => true
       | _ => false) &&
      (match lookupField a "ssdeep" with
       | none => true
       | some (JsVal.bool _) => true
       | _ => false) &&
      (match lookupField a "banners" with
       | none => true
       | some (JsVal.bool _) => true
       | _ => false)
  | _ => false

/-- The validated and defaulted request as destructured on
src/index.ts lines 194-203. -/
structure FuzzArgs where
  domain : String
  nameservers : String
  threads : Int
  format : String
  registered_only : Bool
  mxcheck : Bool
  ssdeep : Bool
  banners : Bool
deriving DecidableEq

/-- Destructuring with defaults (src/index.ts lines 194-203).  A JS default
applies exactly when the property is `undefined`; the handler only reaches
this destructuring after `isFuzzDomainArgs` succeeded, so every present field
already has the matching type and the wildcard arms are unreachable there
(for `domain` the guard guarantees a string is present). -/
def applyDefaults (args : Option JsVal) : FuzzArgs :=
  { domain := match argsField args "domain" with
      | some (JsVal.str s) => s
      | _ => ""
    nameservers := match argsField args "nameservers" with
      | some (JsVal.str s) => s
      | _ => "1.1.1.1"
    threads := match argsField args "threads" with
      | some (JsVal.num n) => n
      | _ => 50
    format := match argsField args "format" with
      | some (JsVal.str s) => s
      | _ => "json"
    registered_only := match argsField args "registered_only" with
      | some (JsVal.bool b) => b
      | _ => true
    mxcheck := match argsField args "mxcheck" with
      | some (JsVal.bool b) => b
      | _ => true
    ssdeep := match argsField args "ssdeep" with
      | some (JsVal.bool b) => b
      | _ => false
    banners := match argsField args "banners" with
      | some (JsVal.bool b) => b
      | _ => true }

/-- The fixed container image (src/index.ts line 14). -/
def DOCKER_IMAGE : String := "elceef/dnstwist"

/-- Argument-list construction (src/index.ts lines 206-216).  JS truthiness:
for the string `nameservers` the test `if (nameservers)` holds iff the string
is non-empty, and for the number `threads` the test `if (threads)` holds iff
the value is non-zero. -/
def buildArgs (r : FuzzArgs) : List String :=
  let args := [r.domain, "--format", r.format]
  let args := if r.registered_only then args ++ ["--registered"] else args
  let args := if r.nameservers ≠ "" then args ++ ["--nameservers", r.nameservers] else args
  let args := if r.threads ≠ 0 then args ++ ["-t", toString r.threads] else args
  let args := if r.mxcheck then args ++ ["--mxcheck"] else args
  let args := if r.ssdeep then args ++ ["--ssdeep"] else args
  let args := if r.banners then args ++ ["-b"] else args
  args

/-- The single command string handed to the shell (src/index.ts line 220):
a template literal joining the argument tokens with single spaces, with no
quoting or escaping of any token. -/
def runCommand (r : FuzzArgs) : String :=
  "docker run --rm " ++ DOCKER_IMAGE ++ " " ++ String.intercalate " " (buildArgs r)

/-!
Model of `JSON.parse` / `JSON.stringify` as used on src/index.ts lines
223-235.  Parsed documents are represented by `Json`; number lexemes are
kept verbatim (the pipeline never interprets numeric values).  Parse errors
carry a V8-style diagnostic (`Unexpected token <c> in JSON at position <n>` /
`Unexpected end of JSON input`): a short description of the failure point,
not an echo of the whole input.
-/

/-- Parsed JSON documents. -/
inductive Json where
  | null
  | bool (b : Bool)
  | num (lexeme : String)
  | str (s : String)
  | arr (elems : List Json)
  | obj (fields : List (String × Json))

/-- Diagnostic for a parse failure at a concrete character. -/
def unexpectedToken (c : Char) (pos : Nat) : String :=
  "Unexpected token " ++ String.mk [c] ++ " in JSON at position " ++ toString pos

/-- Diagnostic for running off the end of the input. -/
def unexpectedEnd : String := "Unexpected end of JSON input"

/-- Skip JSON whitespace, tracking the position. -/
def skipWs : List Char → Nat → List Char × Nat
  | [], n => ([], n)
  | c :: cs, n =>
      if c = ' ' ∨ c = '\t' ∨ c = '\n' ∨ c = '\r' then skipWs cs (n + 1)
      else (c :: cs, n)

/-- Match an exact literal such as `null`, `true`, `false`. -/
def matchLit : List Char → List Char → Nat → Except String (List Char × Nat)
  | [], cs, n => Except.ok (cs, n)
  | _ :: _, [], _ => Except.error unexpectedEnd
  | l :: ls, c :: cs, n =>
      if c = l then matchLit ls cs (n + 1) else Except.error (unexpectedToken c n)

/-- Value of a hexadecimal digit, if any. -/
def hexVal (c : Char) : Option Nat :=
  if '0' ≤ c ∧ c ≤ '9' then some (c.toNat - '0'.toNat)
  else if 'a' ≤ c ∧ c ≤ 'f' then some (c.toNat - 'a'.toNat + 10)
  else if 'A' ≤ c ∧ c ≤ 'F' then some (c.toNat - 'A'.toNat + 10)
  else none

/-- Scan the body of a JSON string (after the opening quote), decoding
escapes, until the closing quote. -/
def parseStrChars : List Char → Nat → List Char → Except String (String × List Char × Nat)
  | [], _, _ => Except.error unexpectedEnd
  | c :: cs, n, acc =>
      if c = '"' then Except.ok (String.mk acc.reverse, cs, n + 1)
      else if c = '\\' then
        match cs with
        | [] => Except.error unexpectedEnd
        | e :: cs2 =>
            if e = 'n' then parseStrChars cs2 (n + 2) ('\n' :: acc)
            else if e = 't' then parseStrChars cs2 (n + 2) ('\t' :: acc)
            else if e = 'r' then parseStrChars cs2 (n + 2) ('\r' :: acc)
            else if e = 'b' then parseStrChars cs2 (n + 2) (Char.ofNat 8 :: acc)
            else if e = 'f' then parseStrChars cs2 (n + 2) (Char.ofNat 12 :: acc)
            else if e = '"' ∨ e = '\\' ∨ e = '/' then parseStrChars cs2 (n + 2) (e :: acc)
            else if e = 'u' then
              match cs2 with
              | h1 :: h2 :: h3 :: h4 :: cs3 =>
                  match hexVal h1, hexVal h2, hexVal h3, hexVal h4 with
                  | some a, some b, some c3, some d =>
                      parseStrChars cs3 (n + 6)
                        (Char.ofNat (((a * 16 + b) * 16 + c3) * 16 + d) :: acc)
                  | _, _, _, _ => Except.error (unexpectedToken e (n + 1))
              | _ => Except.error unexpectedEnd
            else Except.error (unexpectedToken e (n + 1))
      else parseStrChars cs (n + 1) (c :: acc)

/-- Take a maximal run of decimal digits. -/
def takeDigits : List Char → List Char × List Char
  | [] => ([], [])
  | c :: cs =>
      if c.isDigit then
        let p := takeDigits cs
        (c :: p.1, p.2)
      else ([], c :: cs)

/-- Scan a JSON number starting at the current character, returning its
lexeme.  (Leading-zero checking is relaxed; nothing downstream interprets
numeric values.) -/
def parseNum (cs : List Char) (n : Nat) : Except String (String × List Char × Nat) :=
  let (sign, cs1, n1) :=
    match cs with
    | '-' :: rest => (['-'], rest, n + 1)
    | _ => (([] : List Char), cs, n)
  let (intPart, cs2) := takeDigits cs1
  if intPart = [] then
    match cs1 with
    | [] => Except.error unexpectedEnd
    | c :: _ => Except.error (unexpectedToken c n1)
  else
    let n2 := n1 + intPart.length
    let (fracPart, cs3, n3) :=
      match cs2 with
      | '.' :: rest =>
          let p := takeDigits rest
          ('.' :: p.1, p.2, n2 + 1 + p.1.length)
      | _ => (([] : List Char), cs2, n2)
    let (expPart, cs4, n4) :=
      match cs3 with
      | 'e' :: rest =>
          let p := takeDigits rest
          ('e' :: p.1, p.2, n3 + 1 + p.1.length)
      | 'E' :: rest =>
          let p := takeDigits rest
          ('E' :: p.1, p.2, n3 + 1 + p.1.length)
      | _ => (([] : List Char), cs3, n3)
    Except.ok (String.mk (sign ++ intPart ++ fracPart ++ expPart), cs4, n4)

mutual

/-- Parse one JSON value; `fuel` bounds recursion depth. -/
def parseValue : Nat → List Char → Nat → Except String (Json × List Char × Nat)
  | 0, _, n => Except.error ("JSON nesting too deep at position " ++ toString n)
  | fuel + 1, cs, pos =>
      let (cs1, p1) := skipWs cs pos
      match cs1 with
      | [] => Except.error unexpectedEnd
      | c :: rest =>
          if c = 'n' then
            match matchLit ['u', 'l', 'l'] rest (p1 + 1) with
            | Except.ok (cs2, p2) => Except.ok (Json.null, cs2, p2)
            | Except.error e => Except.error e
          else if c = 't' then
            match matchLit ['r', 'u', 'e'] rest (p1 + 1) with
            | Except.ok (cs2, p2) => Except.ok (Json.bool true, cs2, p2)
            | Except.error e => Except.error e
          else if c = 'f' then
            match matchLit ['a', 'l', 's', 'e'] rest (p1 + 1) with
            | Except.ok (cs2, p2) => Except.ok (Json.bool false, cs2, p2)
            | Except.error e => Except.error e
          else if c = '"' then
            match parseStrChars rest (p1 + 1) [] with
            | Except.ok (s, cs2, p2) => Except.ok (Json.str s, cs2, p2)
            | Except.error e => Except.error e
          else if c = '-' ∨ c.isDigit then
            match parseNum (c :: rest) p1 with
            | Except.ok (lex, cs2, p2) => Except.ok (Json.num lex, cs2, p2)
            | Except.error e => Except.error e
          else if c = '[' then
            let (cs2, p2) := skipWs rest (p1 + 1)
            match cs2 with
            | ']' :: cs3 => Except.ok (Json.arr [], cs3, p2 + 1)
            | _ => parseElems fuel cs2 p2 []
          else if c = Char.ofNat 123 then
            let (cs2, p2) := skipWs rest (p1 + 1)
            match cs2 with
            | c2 :: cs3 =>
                if c2 = Char.ofNat 125 then Except.ok (Json.obj [], cs3, p2 + 1)
                else parseMembers fuel cs2 p2 []
            | [] => Except.error unexpectedEnd
          else Except.error (unexpectedToken c p1)

/-- Parse the elements of a non-empty array, up to and including `]`. -/
def parseElems : Nat → List Char → Nat → List Json → Except String (Json × List Char × Nat)
  | 0, _, n, _ => Except.error ("JSON nesting too deep at position " ++ toString n)
  | fuel + 1, cs, pos, acc =>
      match parseValue fuel cs pos with
      | Except.error e => Except.error e
      | Except.ok (v, cs1, p1) =>
          let (cs2, p2) := skipWs cs1 p1
          match cs2 with
          | ']' :: cs3 => Except.ok (Json.arr (acc ++ [v]), cs3, p2 + 1)
          | ',' :: cs3 => parseElems fuel cs3 (p2 + 1) (acc ++ [v])
          | c :: _ => Except.error (unexpectedToken c p2)
          | [] => Except.error unexpectedEnd

/-- Parse the members of a non-empty object, up to and including the closing
brace. -/
def parseMembers : Nat → List Char → Nat → List (String × Json) →
    Except String (Json × List Char × Nat)
  | 0, _, n, _ => Except.error ("JSON nesting too deep at position " ++ toString n)
  | fuel + 1, cs, pos, acc =>
      let (cs0, p0) := skipWs cs pos
      match cs0 with
      | '"' :: rest =>
          match parseStrChars rest (p0 + 1) [] with
          | Except.error e => Except.error e
          | Except.ok (k, cs1, p1) =>
              let (cs2, p2) := skipWs cs1 p1
              match cs2 with
              | ':' :: cs3 =>
                  match parseValue fuel cs3 (p2 + 1) with
                  | Except.error e => Except.error e
                  | Except.ok (v, cs4, p4) =>
                      let (cs5, p5) := skipWs cs4 p4
                      match cs5 with
                      | ',' :: cs6 => parseMembers fuel cs6 (p5 + 1) (acc ++ [(k, v)])
                      | c :: cs6 =>
                          if c = Char.ofNat 125 then
                            Except.ok (Json.obj (acc ++ [(k, v)]), cs6, p5 + 1)
                          else Except.error (unexpectedToken c p5)
                      | [] => Except.error unexpectedEnd
              | c :: _ => Except.error (unexpectedToken c p2)
              | [] => Except.error unexpectedEnd
      | c :: _ => Except.error (unexpectedToken c p0)
      | [] => Except.error unexpectedEnd

end

/-- Model of `JSON.parse`: parse one value, then require only whitespace to
remain.  The fuel is generous enough for any input (each unit of nesting
consumes at least one character). -/
def jsonParse (s : String) : Except String Json :=
  match parseValue (s.length + 1) s.data 0 with
  | Except.error e => Except.error e
  | Except.ok (v, rest, p) =>
      match skipWs rest p with
      | ([], _) => Except.ok v
      | (c :: _, p2) => Except.error (unexpectedToken c p2)

/-- Escape a string for JSON output (quote and backslash; sufficient for the
values this pipeline produces). -/
def escapeJsonStr (s : String) : String :=
  String.mk (s.data.foldr (fun c acc =>
    if c = '"' then '\\' :: '"' :: acc
    else if c = '\\' then '\\' :: '\\' :: acc
    else c :: acc) [])

mutual

/-- Model of `JSON.stringify(results, null, 2)` (src/index.ts line 234):
a total serialization of the parsed document.  (Indentation is not
reproduced; no claim inspects the success-path text.) -/
def jsonStringify : Json → String
  | Json.null => "null"
  | Json.bool true => "true"
  | Json.bool false => "false"
  | Json.num lex => lex
  | Json.str s => "\"" ++ escapeJsonStr s ++ "\""
  | Json.arr xs => "[" ++ stringifyElems xs ++ "]"
  | Json.obj fs => "\x7b" ++ stringifyFields fs ++ "\x7d"

/-- Serialize array elements, comma separated. -/
def stringifyElems : List Json → String
  | [] => ""
  | [x] => jsonStringify x
  | x :: y :: xs => jsonStringify x ++ "," ++ stringifyElems (y :: xs)

/-- Serialize object members, comma separated. -/
def stringifyFields : List (String × Json) → String
  | [] => ""
  | [(k, v)] => "\"" ++ escapeJsonStr k ++ "\":" ++ jsonStringify v
  | (k, v) :: f :: fs =>
      "\"" ++ escapeJsonStr k ++ "\":" ++ jsonStringify v ++ "," ++ stringifyFields (f :: fs)

end

/-- Model of the string interpolation of a caught `JSON.parse` exception:
a `SyntaxError` stringifies to its name followed by its message. -/
def errorToString (msg : String) : String := "SyntaxError: " ++ msg

/-- Result translation (src/index.ts lines 223-228): unconditionally
`JSON.parse` the captured stdout; on failure throw an error wrapping the
parse diagnostic.  Note the raw stdout is not part of the thrown message,
only the interpolated parse error is. -/
def translateOutput (stdout : String) : Except String Json :=
  match jsonParse stdout with
  | Except.ok results => Except.ok results
  | Except.error e => Except.error ("Failed to parse dnstwist output: " ++ errorToString e)

/-- One element of the MCP response `content` array. -/
structure TextContent where
  type : String
  text : String
deriving DecidableEq

/-- The value returned by the `CallToolRequestSchema` handler.  A success
response carries no `isError` property, which is falsy; modelled as
`isError := false`. -/
structure ToolResponse where
  content : List TextContent
  isError : Bool
deriving DecidableEq

/-- The normalized failure response built in the catch block
(src/index.ts lines 238-249). -/
def errResponse (msg : String) : ToolResponse :=
  { content := [{ type := "text", text := "Error executing dnstwist: " ++ msg }],
    isError := true }

/-- State of the container runtime as observed by `ensureSetup`:
whether `docker --version` succeeds, whether the image is in the local
cache, and the outcome a `docker pull` would have. -/
structure DockerEnv where
  dockerAvailable : Bool
  imagePresent : Bool
  pullResult : Except String Unit

/-- Translation of `ensureSetup` (src/index.ts lines 94-116), returning the
outcome together with the trace of docker commands issued.  The version
check failing yields the fixed message; an absent image triggers exactly one
pull, whose failure message propagates to the caller; a present image
performs only the existence check. -/
def ensureSetup (d : DockerEnv) : Except String DockerEnv × List String :=
  if d.dockerAvailable = false then
    (Except.error "Docker is not installed or not running. Please install Docker and try again.",
     ["docker --version"])
  else if d.imagePresent then
    (Except.ok d, ["docker --version", "docker image inspect " ++ DOCKER_IMAGE])
  else
    match d.pullResult with
    | Except.ok _ =>
        (Except.ok { d with imagePresent := true },
         ["docker --version", "docker image inspect " ++ DOCKER_IMAGE,
          "docker pull " ++ DOCKER_IMAGE])
    | Except.error e =>
        (Except.error e,
         ["docker --version", "docker image inspect " ++ DOCKER_IMAGE,
          "docker pull " ++ DOCKER_IMAGE])

/-- Translation of the `CallToolRequestSchema` handler
(src/index.ts lines 176-250).  Effects are driven by the docker state `d`
and the command oracle `exec` (mapping the executed command line to either a
failure message or the captured stdout).  The returned list is the trace of
commands issued, so that non-invocation of the executor is observable.
Every `throw` inside the original `try` lands in the catch block, which
normalizes it to `errResponse` of the thrown message. -/
def handleCallTool (d : DockerEnv) (exec : String → Except String String)
    (name : String) (args : Option JsVal) : ToolResponse × List String :=
  match ensureSetup d with
  | (Except.error e, tr) => (errResponse e, tr)
  | (Except.ok _, tr) =>
      if name ≠ "fuzz_domain" then (errResponse ("Unknown tool: " ++ name), tr)
      else if isFuzzDomainArgs args = false then
        (errResponse "Invalid arguments for fuzz_domain", tr)
      else
        let r := applyDefaults args
        let cmd := runCommand r
        match exec cmd with
        | Except.error e => (errResponse e, tr ++ [cmd])
        | Except.ok stdout =>
            match translateOutput stdout with
            | Except.error e => (errResponse e, tr ++ [cmd])
            | Except.ok results =>
                ({ content := [{ type := "text", text := jsonStringify results }],
                   isError := false }, tr ++ [cmd])

/-- Word splitting the shell performs on the joined command string: the
command contains no quoting, so for inputs whose only metacharacters are
spaces, the child process receives the space-separated words. -/
def splitWords : List Char → List Char → List String
  | [], acc => if acc.isEmpty then [] else [String.mk acc.reverse]
  | c :: rest, acc =>
      if c = ' ' then
        if acc.isEmpty then splitWords rest []
        else String.mk acc.reverse :: splitWords rest []
      else splitWords rest (c :: acc)

/-- The argument vector the shell derives from a command string. -/
def shellWords (s : String) : List String :=
  splitWords s.data []

/-- Does the second list start with the first? -/
def listLeads : List Char → List Char → Bool
  | [], _ => true
  | _ :: _, [] => false
  | a :: as, b :: bs => a = b && listLeads as bs

/-- Does `hay` contain `needle` as a contiguous sublist? -/
def listHasSub (needle : List Char) : List Char → Bool
  | [] => needle.isEmpty
  | c :: rest => listLeads needle (c :: rest) || listHasSub needle rest

/-- Substring test on strings. -/
def strContains (hay needle : String) : Bool :=
  listHasSub needle.data hay.data

/-- Does the raw payload carry a string-typed `domain` property?  This is the
first conjunct of `isFuzzDomainArgs`. -/
def domainFieldIsString (args : Option JsVal) : Bool :=
  match argsField args "domain" with
  | some (JsVal.str _) => true
  | _ => false

/-- Does `s` start with `p`? -/
def strLeadsWith (s p : String) : Bool :=
  listLeads p.data s.data

/-!
Theorems.  Each claim of the specification is settled below; helper lemmas
are shared across claims.
-/

/-- Closed form of the sequential argument construction: each option
contributes its tokens exactly when its condition holds, in processing
order. -/
theorem buildArgs_decomp (r : FuzzArgs) :
    buildArgs r = [r.domain, "--format", r.format]
      ++ (if r.registered_only then ["--registered"] else [])
      ++ (if r.nameservers ≠ "" then ["--nameservers", r.nameservers] else [])
      ++ (if r.threads ≠ 0 then ["-t", toString r.threads] else [])
      ++ (if r.mxcheck then ["--mxcheck"] else [])
      ++ (if r.ssdeep then ["--ssdeep"] else [])
      ++ (if r.banners then ["-b"] else []) := by
  simp only [buildArgs]
  split_ifs <;> simp

/-- Claim C2: for every validated request, the Command Builder token list
begins with exactly [domain, "--format", format], a boolean field holding
false emits no tokens (the closed form shows each flag appears exactly under
its condition), and every emitted token is one of the tokens of the
mapping table. -/
theorem buildArgs_shape (r : FuzzArgs) :
    buildArgs r = [r.domain, "--format", r.format]
      ++ (if r.registered_only then ["--registered"] else [])
      ++ (if r.nameservers ≠ "" then ["--nameservers", r.nameservers] else [])
      ++ (if r.threads ≠ 0 then ["-t", toString r.threads] else [])
      ++ (if r.mxcheck then ["--mxcheck"] else [])
      ++ (if r.ssdeep then ["--ssdeep"] else [])
      ++ (if r.banners then ["-b"] else [])
    ∧ (buildArgs r).take 3 = [r.domain, "--format", r.format]
    ∧ ∀ t ∈ buildArgs r,
        t ∈ [r.domain, "--format", r.format, "--registered", "--nameservers",
             r.nameservers, "-t", toString r.threads, "--mxcheck", "--ssdeep", "-b"] := by
  refine ⟨buildArgs_decomp r, ?_, ?_⟩
  · rw [buildArgs_decomp r]
    rfl
  · rw [buildArgs_decomp r]
    intro t ht
    simp only [List.mem_append] at ht
    rcases ht with ((((((h | h) | h) | h) | h) | h) | h) <;>
      (try split_ifs at h) <;>
      simp only [List.mem_cons, List.not_mem_nil, or_false] at h ⊢ <;>
      tauto

/-- Claim C3: the request whose only field is domain = "example.com"
validates, and after defaults the built argument list is exactly the
documented default command line. -/
theorem default_request_command :
    isFuzzDomainArgs (some (JsVal.obj [("domain", JsVal.str "example.com")])) = true ∧
    buildArgs (applyDefaults (some (JsVal.obj [("domain", JsVal.str "example.com")]))) =
      ["example.com", "--format", "json", "--registered", "--nameservers", "1.1.1.1",
       "-t", "50", "--mxcheck", "-b"] := by
  constructor <;> decide

/-- Claim C4 (divergence witness): a payload whose threads field is the
integer 200, far outside the documented 1-100 bound, nevertheless passes
`isFuzzDomainArgs`, and the pipeline builds a command carrying "-t" "200";
the validator never checks the declared minimum/maximum of the input
schema. -/
theorem threads_out_of_range_accepted :
    isFuzzDomainArgs (some (JsVal.obj
      [("domain", JsVal.str "example.com"), ("threads", JsVal.num 200)])) = true ∧
    buildArgs (applyDefaults (some (JsVal.obj
      [("domain", JsVal.str "example.com"), ("threads", JsVal.num 200)]))) =
      ["example.com", "--format", "json", "--registered", "--nameservers", "1.1.1.1",
       "-t", "200", "--mxcheck", "-b"] := by
  constructor <;> decide

/-- Claim C5 (counterexample): a payload whose domain is the empty string
passes validation; `isFuzzDomainArgs` only checks that the property is a
string, never that it is non-empty. -/
theorem empty_domain_passes_validation :
    isFuzzDomainArgs (some (JsVal.obj [("domain", JsVal.str "")])) = true := by
  decide

/-- No command issued by `ensureSetup` is a `docker run` invocation: the
setup stage only queries the version, inspects the image, and possibly
pulls it. -/
theorem ensureSetup_trace_no_run (d : DockerEnv) :
    ∀ c ∈ (ensureSetup d).2, strLeadsWith c "docker run" = false := by
  rcases d with ⟨avail, pres, pr⟩
  cases avail <;> cases pres <;> rcases pr with e | u <;>
    simp [ensureSetup] <;> decide

/-- Claim C5 (amended): validation succeeds only when the domain property is
present and is a string (possibly empty); whenever it is absent or not a
string, `isFuzzDomainArgs` fails and the Process Executor is never invoked
(the handler issues no `docker run` command). -/
theorem validator_requires_domain_string (d : DockerEnv)
    (ex : String → Except String String) (args : Option JsVal)
    (h : domainFieldIsString args = false) :
    isFuzzDomainArgs args = false ∧
    ∀ c ∈ (handleCallTool d ex "fuzz_domain" args).2, strLeadsWith c "docker run" = false := by
  have hval : isFuzzDomainArgs args = false := by
    cases args with
    | none => rfl
    | some v =>
      cases v with
      | obj a =>
          cases hd : lookupField a "domain" with
          | none => simp [isFuzzDomainArgs, hd]
          | some w =>
              cases w <;> simp_all [isFuzzDomainArgs, domainFieldIsString, argsField, hd]
      | str s => rfl
      | num n => rfl
      | bool b => rfl
      | null => rfl
      | arr xs => rfl
  refine ⟨hval, ?_⟩
  have htr : (handleCallTool d ex "fuzz_domain" args).2 = (ensureSetup d).2 := by
    rcases hs : ensureSetup d with ⟨res, tr⟩
    rcases res with e | d'
    · simp [handleCallTool, hs]
    · simp [handleCallTool, hs, hval]
  rw [htr]
  exact ensureSetup_trace_no_run d

/-- Witness for the amended C5 at a concrete payload with no domain
property. -/
theorem validator_requires_domain_string_witness :
    isFuzzDomainArgs (some (JsVal.obj [("nameservers", JsVal.str "8.8.8.8")])) = false ∧
    ∀ c ∈ (handleCallTool ⟨true, true, Except.ok ()⟩ (fun _ => Except.error "boom")
        "fuzz_domain" (some (JsVal.obj [("nameservers", JsVal.str "8.8.8.8")]))).2,
      strLeadsWith c "docker run" = false :=
  validator_requires_domain_string ⟨true, true, Except.ok ()⟩ (fun _ => Except.error "boom")
    (some (JsVal.obj [("nameservers", JsVal.str "8.8.8.8")])) (by decide)

/-- Claim C8 (counterexample): the payload with threads = 0 passes
validation, yet the built argument list carries no "-t" token at all -
`if (threads)` is falsy at zero, so the stringified threads value is never
emitted. -/
theorem threads_zero_omits_flag :
    isFuzzDomainArgs (some (JsVal.obj
      [("domain", JsVal.str "example.com"), ("threads", JsVal.num 0)])) = true ∧
    "-t" ∉ buildArgs (applyDefaults (some (JsVal.obj
      [("domain", JsVal.str "example.com"), ("threads", JsVal.num 0)]))) := by
  constructor <;> decide

/-- Claim C8 (amended): whenever the validated, defaulted request has a
non-zero threads value (in particular under the default 50), the built
argument list contains "-t" immediately followed by the stringified threads
value. -/
theorem threads_flag_when_nonzero (r : FuzzArgs) (h : r.threads ≠ 0) :
    ∃ l₁ l₂, buildArgs r = l₁ ++ "-t" :: toString r.threads :: l₂ := by
  rw [buildArgs_decomp r, if_pos h]
  refine ⟨[r.domain, "--format", r.format]
      ++ (if r.registered_only then ["--registered"] else [])
      ++ (if r.nameservers ≠ "" then ["--nameservers", r.nameservers] else []),
    (if r.mxcheck then ["--mxcheck"] else [])
      ++ (if r.ssdeep then ["--ssdeep"] else [])
      ++ (if r.banners then ["-b"] else []), ?_⟩
  simp [List.append_assoc]

/-- Witness for the amended C8 at the defaulted example request (threads
50). -/
theorem threads_flag_when_nonzero_witness :
    ∃ l₁ l₂,
      buildArgs ⟨"example.com", "1.1.1.1", 50, "json", true, true, false, true⟩ =
        l₁ ++ "-t" :: toString (50 : Int) :: l₂ :=
  threads_flag_when_nonzero ⟨"example.com", "1.1.1.1", 50, "json", true, true, false, true⟩
    (by decide)

/-- Claim C9: when the image-existence check succeeds the Environment
Verifier performs no pull, and on the second of two successive calls - the
first having succeeded - no pull command is issued either. -/
theorem ensureSetup_no_pull_when_present (d d' : DockerEnv)
    (h : d.imagePresent = true) (h2 : (ensureSetup d).1 = Except.ok d') :
    ("docker pull " ++ DOCKER_IMAGE) ∉ (ensureSetup d).2 ∧
    ("docker pull " ++ DOCKER_IMAGE) ∉ (ensureSetup d').2 := by
  rcases d with ⟨avail, pres, pr⟩
  cases avail
  · simp [ensureSetup] at h2
  · cases pres
    · simp at h
    · have he : ensureSetup ⟨true, true, pr⟩ =
          (Except.ok ⟨true, true, pr⟩,
           ["docker --version", "docker image inspect " ++ DOCKER_IMAGE]) := rfl
      rw [he] at h2
      simp only [] at h2
      injection h2 with h3
      subst h3
      rw [he]
      dsimp only
      constructor <;> decide

/-- Witness for C9 at a concrete state with the image present. -/
theorem ensureSetup_no_pull_when_present_witness :
    ("docker pull " ++ DOCKER_IMAGE) ∉ (ensureSetup ⟨true, true, Except.ok ()⟩).2 ∧
    ("docker pull " ++ DOCKER_IMAGE) ∉ (ensureSetup ⟨true, true, Except.ok ()⟩).2 :=
  ensureSetup_no_pull_when_present ⟨true, true, Except.ok ()⟩ ⟨true, true, Except.ok ()⟩
    rfl rfl

/-- Claim C1 (divergence witness): a validated request with format csv,
whose tool stdout is CSV text, does not get a raw pass-through response;
the handler unconditionally JSON-parses the stdout and returns a
parse-error response. -/
theorem csv_request_yields_parse_error :
    isFuzzDomainArgs (some (JsVal.obj
      [("domain", JsVal.str "example.com"), ("format", JsVal.str "csv")])) = true ∧
    (handleCallTool ⟨true, true, Except.ok ()⟩
        (fun _ => Except.ok "fuzzer,domain\nhomoglyph,exarnple.com")
        "fuzz_domain"
        (some (JsVal.obj
          [("domain", JsVal.str "example.com"), ("format", JsVal.str "csv")]))).1 =
      errResponse
        "Failed to parse dnstwist output: SyntaxError: Unexpected token u in JSON at position 1" := by
  constructor
  · decide
  · rfl

/-- Claim C6: every failing invocation produces an ordinary response whose
single text payload is prefixed "Error executing dnstwist: " with the error
flag set; each stage failure (setup, unknown tool, validation, execution,
translation) lands in this shape, and the handler is a total function - no
failure escapes as a raised fault. -/
theorem failures_normalized (d : DockerEnv) (ex : String → Except String String)
    (name : String) (args : Option JsVal) :
    ((handleCallTool d ex name args).1.isError = true →
      ∃ m, (handleCallTool d ex name args).1.content =
        [{ type := "text", text := "Error executing dnstwist: " ++ m }]) ∧
    (((∃ e, (ensureSetup d).1 = Except.error e) ∨ name ≠ "fuzz_domain" ∨
        isFuzzDomainArgs args = false ∨
        (∃ e, ex (runCommand (applyDefaults args)) = Except.error e) ∨
        (∃ s e, ex (runCommand (applyDefaults args)) = Except.ok s ∧
           jsonParse s = Except.error e)) →
      (handleCallTool d ex name args).1.isError = true) := by
  rcases hs : ensureSetup d with ⟨res, tr⟩
  rcases res with e | d'
  · constructor
    · intro _
      exact ⟨e, by simp [handleCallTool, hs, errResponse]⟩
    · intro _
      simp [handleCallTool, hs, errResponse]
  · by_cases hn : name = "fuzz_domain"
    · subst hn
      cases hv : isFuzzDomainArgs args
      · constructor
        · intro _
          exact ⟨"Invalid arguments for fuzz_domain", by simp [handleCallTool, hs, hv, errResponse]⟩
        · intro _
          simp [handleCallTool, hs, hv, errResponse]
      · rcases he : ex (runCommand (applyDefaults args)) with eE | stdout
        · constructor
          · intro _
            exact ⟨eE, by simp [handleCallTool, hs, hv, he, errResponse]⟩
          · intro _
            simp [handleCallTool, hs, hv, he, errResponse]
        · rcases hj : jsonParse stdout with eJ | doc
          · constructor
            · intro _
              exact ⟨"Failed to parse dnstwist output: " ++ errorToString eJ,
                by simp [handleCallTool, hs, hv, he, translateOutput, hj, errResponse]⟩
            · intro _
              simp [handleCallTool, hs, hv, he, translateOutput, hj, errResponse]
          · constructor
            · intro hiE
              exfalso
              have hfalse : (handleCallTool d ex "fuzz_domain" args).1.isError = false := by
                simp [handleCallTool, hs, hv, he, translateOutput, hj]
              rw [hfalse] at hiE
              exact Bool.noConfusion hiE
            · intro hfail
              exfalso
              rcases hfail with ⟨e, hh⟩ | hh | hh | ⟨e, hh⟩ | ⟨s, e, hok, hperr⟩
              · simp at hh
              · exact hh rfl
              · exact Bool.noConfusion hh
              · simp at hh
              · injection hok with hok'
                subst hok'
                rw [hj] at hperr
                simp at hperr
    · constructor
      · intro _
        exact ⟨"Unknown tool: " ++ name, by simp [handleCallTool, hs, hn, errResponse]⟩
      · intro _
        simp [handleCallTool, hs, hn, errResponse]

/-- Witness for C6 at a state where the setup stage fails. -/
theorem failures_normalized_witness :
    ∃ m, (handleCallTool ⟨false, true, Except.ok ()⟩ (fun _ => Except.ok "[]")
        "fuzz_domain" none).1.content =
      [{ type := "text", text := "Error executing dnstwist: " ++ m }] :=
  (failures_normalized ⟨false, true, Except.ok ()⟩ (fun _ => Except.ok "[]")
    "fuzz_domain" none).1 rfl

/-- A list is a leading segment of itself followed by anything. -/
theorem listLeads_self_append (xs ys : List Char) : listLeads xs (xs ++ ys) = true := by
  induction xs with
  | nil => rfl
  | cons a as ih => simp [listLeads, ih]

/-- Claim C7 (counterexample): on an unparseable stdout the thrown message
wraps the parse diagnostic, and the raw stdout text does not occur in it. -/
theorem parse_error_message_lacks_raw_text :
    translateOutput "this is definitely not json output from the dnstwist tool" =
      Except.error
        "Failed to parse dnstwist output: SyntaxError: Unexpected token h in JSON at position 1" ∧
    strContains
      "Failed to parse dnstwist output: SyntaxError: Unexpected token h in JSON at position 1"
      "this is definitely not json output from the dnstwist tool" = false := by
  constructor
  · rfl
  · decide

/-- Claim C7 (amended): for every stdout on which JSON parsing fails
(including the empty string), the Result Translator fails with an error
message carrying the parse diagnostic behind the fixed prefix, and returns
no result at all - never a partial one. -/
theorem translate_failure_no_partial (s : String) (h : ∃ e, jsonParse s = Except.error e) :
    (∃ m, translateOutput s = Except.error m ∧
      strLeadsWith m "Failed to parse dnstwist output: SyntaxError: " = true) ∧
    ∀ r, translateOutput s ≠ Except.ok r := by
  obtain ⟨e, he⟩ := h
  constructor
  · refine ⟨"Failed to parse dnstwist output: " ++ errorToString e, ?_, ?_⟩
    · simp [translateOutput, he]
    · show listLeads ("Failed to parse dnstwist output: SyntaxError: ").data
        (("Failed to parse dnstwist output: " ++ errorToString e).data) = true
      have hdata : ("Failed to parse dnstwist output: " ++ errorToString e).data
          = ("Failed to parse dnstwist output: SyntaxError: ").data ++ e.data := by
        show ("Failed to parse dnstwist output: " ++ ("SyntaxError: " ++ e)).data
          = ("Failed to parse dnstwist output: SyntaxError: ").data ++ e.data
        rw [← String.append_assoc]
        rfl
      rw [hdata]
      exact listLeads_self_append _ _
  · intro r hr
    simp [translateOutput, he] at hr

/-- Witness for the amended C7 at the empty stdout. -/
theorem translate_failure_no_partial_witness :
    (∃ m, translateOutput "" = Except.error m ∧
      strLeadsWith m "Failed to parse dnstwist output: SyntaxError: " = true) ∧
    ∀ r, translateOutput "" ≠ Except.ok r :=
  translate_failure_no_partial "" ⟨"Unexpected end of JSON input", rfl⟩

/-- Claim C10: the executed command joins tokens with single spaces and no
quoting, so a validated request whose domain contains whitespace loses its
token boundary - the shell hands the tool "evil.com" as the positional
argument and the full domain string reaches it in no argument at all. -/
theorem unquoted_join_breaks_tokens :
    isFuzzDomainArgs (some (JsVal.obj [("domain", JsVal.str "evil.com extra")])) = true ∧
    runCommand (applyDefaults (some (JsVal.obj [("domain", JsVal.str "evil.com extra")]))) =
      "docker run --rm elceef/dnstwist evil.com extra --format json --registered --nameservers 1.1.1.1 -t 50 --mxcheck -b" ∧
    shellWords (runCommand (applyDefaults
        (some (JsVal.obj [("domain", JsVal.str "evil.com extra")])))) ≠
      "docker" :: "run" :: "--rm" :: DOCKER_IMAGE ::
        buildArgs (applyDefaults (some (JsVal.obj [("domain", JsVal.str "evil.com extra")]))) ∧
    (shellWords (runCommand (applyDefaults
        (some (JsVal.obj [("domain", JsVal.str "evil.com extra")]))))).get? 4 =
      some "evil.com" ∧
    "evil.com extra" ∉
      shellWords (runCommand (applyDefaults
        (some (JsVal.obj [("domain", JsVal.str "evil.com extra")])))) := by
  refine ⟨by decide, rfl, by decide, rfl, by decide⟩
